import Mathlib

set_option linter.unusedVariables false

/-! Shallow embedding of the PSAW Searchanise API client
(psaw/__init__.py and psaw/decorators.py, Python 2.6/2.7 per setup.py):
the product data model, XML feed construction, request dispatch with the
private-key guard, response parsing, and the search query builder, together
with theorems checking the specification's claims about them. HTTP transport
is modelled by recording the requests an operation would send and passing
the response it would receive as an argument; the XML library (lxml) is
modelled by an explicit element-tree type. -/

/-- Scalar Python values appearing as field values: None, booleans,
integers and text. Floats behave exactly like integers in the code paths
modelled here (both support addition with 0.0 and render via str), so they
are not modelled separately. -/
inductive PyScalar where
  | sNone : PyScalar
  | sBool : Bool → PyScalar
  | sInt : Int → PyScalar
  | sStr : String → PyScalar
  deriving DecidableEq

/-- Values of product-record fields and custom fields: a scalar, or a
sequence (list/tuple) of scalars. The structured-descriptor dict form
mentioned in the source docstring is not modelled: the source has no
dedicated handling for it (a dict would be iterated like any other
iterable, yielding its keys) and no claim depends on it. -/
inductive PyValue where
  | scalar : PyScalar → PyValue
  | seq : List PyScalar → PyValue
  deriving DecidableEq

/-- Text content of an lxml element: unset (None), a plain string, or a
CDATA-wrapped string (etree.CDATA). Reading .text on a node whose text was
set via CDATA yields the wrapped string. -/
inductive XText where
  | unset : XText
  | plain : String → XText
  | cdata : String → XText
  deriving DecidableEq

/-- Model of an lxml element-tree node: tag (in Clark notation when the
element is namespaced), attributes in insertion order, text content, the
namespace declarations (nsmap) supplied at creation, and the child elements
in document order. -/
inductive Element where
  | mk : String → List (String × String) → XText → List (Option String × String) → List Element → Element

def Element.tag : Element → String
  | .mk t _ _ _ _ => t

def Element.attrib : Element → List (String × String)
  | .mk _ a _ _ _ => a

def Element.text : Element → XText
  | .mk _ _ x _ _ => x

def Element.nsmap : Element → List (Option String × String)
  | .mk _ _ _ m _ => m

def Element.children : Element → List Element
  | .mk _ _ _ _ c => c

/-- Atom namespace URI, the default (unprefixed) entry of NSMAP. -/
def ATOM_NS : String := "http://www.w3.org/2005/Atom"

/-- Searchanise custom namespace URI, bound to the cs prefix in NSMAP. -/
def CS_NS : String := "http://searchanise.com/ns/1.0"

/-- Model of the NSMAP constant: None maps to the Atom namespace and cs to
the vendor namespace. -/
def NSMAP : List (Option String × String) := [(none, ATOM_NS), (some "cs", CS_NS)]

/-- Clark-notation tag for a namespaced element, as built by the source
with string concatenation of brace, URI, brace and local name. -/
def clarkTag (ns localName : String) : String :=
  "\x7b" ++ ns ++ "\x7d" ++ localName

/-- Model of lxml tag normalisation at element creation: a tag of the form
brace-brace-name (an empty Clark namespace) denotes the null namespace, so
the braces are stripped; other tags are kept as given. -/
def lxmlTag (tag : String) : String :=
  if tag.take 2 = "\x7b\x7d" then tag.drop 2 else tag

/-- Model of the REQUIRED_ENTRY_FIELDS constant. The source keeps these in
a set with unspecified iteration order; the model fixes declaration order,
which no claim distinguishes. -/
def REQUIRED_ENTRY_FIELDS : List String := ["id", "title", "summary", "link"]

/-- Model of the OPTIONAL_ENTRY_FIELDS constant. -/
def OPTIONAL_ENTRY_FIELDS : List String :=
  ["price", "quantity", "product_code", "image_link"]

/-- Model of the STANDARD_ENTRY_FIELDS constant (required union optional;
the two lists are disjoint). -/
def STANDARD_ENTRY_FIELDS : List String :=
  REQUIRED_ENTRY_FIELDS ++ OPTIONAL_ENTRY_FIELDS

/-- Errors the library code can raise: PSAWException (library usage),
SearchaniseException (remote service reported errors), and a Python-level
TypeError escaping from a library call (str.join on None, lxml rejecting a
non-text attribute value or CDATA payload). -/
inductive PyError where
  | psaw : String → PyError
  | searchanise : String → PyError
  | typeErr : String → PyError
  deriving DecidableEq

/-- Lookup in a Python dict modelled as an association list with unique
keys in insertion order. -/
def dget {V : Type} : List (String × V) → String → Option V
  | [], _ => none
  | p :: d, k => if p.1 = k then some p.2 else dget d k

/-- Assignment d[k] = v on a dict modelled as an association list: an
existing key keeps its position and gets the new value, a new key is
appended. -/
def dset {V : Type} : List (String × V) → String → V → List (String × V)
  | [], k, v => [(k, v)]
  | p :: d, k, v => if p.1 = k then (k, v) :: d else p :: dset d k v

/-- Product record: a Python dict from field name to value, modelled as an
association list with unique keys in insertion order. -/
abbrev Product : Type := List (String × PyValue)

/-- Model of Searchanise._sanitize_text on scalars. None and False map to
the empty string; values supporting addition with 0.0 (booleans and
numbers) map to their str() rendering (note str(True) is the string True);
a string raises TypeError on the addition probe and is wrapped in
etree.CDATA. -/
def sanitize_text : PyScalar → XText
  | .sNone => .plain ""
  | .sBool false => .plain ""
  | .sBool true => .plain "True"
  | .sInt n => .plain (toString n)
  | .sStr s => .cdata s

/-- Model of _sanitize_text applied to a possibly non-scalar value, as the
standard-field loops do: a list/tuple fails the addition probe and is then
rejected by etree.CDATA with a TypeError. -/
def sanitize_value : PyValue → Except PyError XText
  | .scalar s => .ok (sanitize_text s)
  | .seq _ => .error (.typeErr "Invalid input of type list or tuple")

/-- Custom-field parameters dict: text_search flag, weight and type. The
source reads params of weight only under text_search, so the model keeps it
always available; Python treats a missing or empty type entry as falsy. -/
structure CFParams where
  text_search : Bool
  weight : Int
  type_ : Option String
  deriving DecidableEq

/-- Model of the Searchanise client instance state. Field names follow the
source with the leading underscore of the private attributes dropped. The
prebuilt custom-field element cache stores each element's attribute list:
only _prebuild_custom_fields_elements writes the cache and every element it
builds is attribute-only (no text, no children), with tag cs:attribute and
nsmap NSMAP. -/
structure Searchanise where
  base_url : String
  max_products_per_feed : Nat
  api_key : Option String
  private_key : Option String
  api_version : String
  prebuilt_custom_field_elements : List (String × List (String × String))
  products_queue : List Product
  deriving DecidableEq

/-- Model of Searchanise.__init__. The max_products_per_feed parameter is
accepted but the attribute is assigned the literal 200; the api_version
float 1.2 is modelled by its rendering. -/
def Searchanise.init (api_key private_key : Option String)
    (max_products_per_feed : Nat) : Searchanise :=
  { base_url := "http://searchanise.com/api/"
    max_products_per_feed := 200
    api_key := api_key
    private_key := private_key
    api_version := "1.2"
    prebuilt_custom_field_elements := []
    products_queue := [] }

/-- Attribute list of a prebuilt custom-field element, in lxml insertion
order as set by _prebuild_custom_fields_elements: name, then text_search Y
and weight when text_search is truthy, then type when params carry a truthy
(non-empty) type. -/
def prebuilt_attrs (custom_field_name : String) (params : CFParams) :
    List (String × String) :=
  [("name", custom_field_name)]
    ++ (if params.text_search then
          [("text_search", "Y"), ("weight", toString params.weight)]
        else [])
    ++ (match params.type_ with
        | some t => if t = "" then [] else [("type", t)]
        | none => [])

/-- Model of _prebuild_custom_fields_elements: for each supplied field,
store its prebuilt attribute-only element in the cache. -/
def Searchanise.prebuild_custom_fields_elements (st : Searchanise)
    (custom_fields_params : List (String × CFParams)) : Searchanise :=
  let cache := custom_fields_params.foldl
    (fun cache p => dset cache p.1 (prebuilt_attrs p.1 p.2))
    st.prebuilt_custom_field_elements
  { st with prebuilt_custom_field_elements := cache }

/-- Model of _get_prebuilt_custom_field_element: return the cached
attribute template for the field, lazily prebuilding one with empty params
on a miss (an empty params dict has falsy text_search and type). The deep
copy taken by the source is implicit in the functional model. On the miss
path the freshly cached entry is exactly the prebuilt attribute list for
empty params, which the model returns directly. -/
def Searchanise.get_prebuilt_custom_field_element (st : Searchanise)
    (custom_field_name : String) : List (String × String) × Searchanise :=
  match dget st.prebuilt_custom_field_elements custom_field_name with
  | some attrs => (attrs, st)
  | none =>
      let st2 := st.prebuild_custom_fields_elements
        [(custom_field_name, ⟨false, 0, none⟩)]
      (prebuilt_attrs custom_field_name ⟨false, 0, none⟩, st2)

/-- Model of _build_custom_field. A string value is caught by the
isinstance check before the iteration attempt (a Python string is itself
iterable) and becomes CDATA text; a list/tuple is iterated, emitting one
value sub-element per item with the sanitised item text; any other scalar
fails the iteration with TypeError and falls back to text content. -/
def Searchanise.build_custom_field (st : Searchanise)
    (custom_field_name : String) (custom_field_value : PyValue) :
    Element × Searchanise :=
  let pair := st.get_prebuilt_custom_field_element custom_field_name
  match custom_field_value with
  | .scalar (.sStr s) =>
      (.mk (clarkTag CS_NS "attribute") pair.1 (sanitize_text (.sStr s)) NSMAP [],
       pair.2)
  | .seq items =>
      (.mk (clarkTag CS_NS "attribute") pair.1 .unset NSMAP
        (items.map (fun v => .mk "value" [] (sanitize_text v) [] [])),
       pair.2)
  | .scalar sc =>
      (.mk (clarkTag CS_NS "attribute") pair.1 (sanitize_text sc) NSMAP [],
       pair.2)

/-- Lookup of a field the caller knows to be present; a missing key
defaults to None, a case the entry-builder loops never reach because they
iterate only over present keys. -/
def pget (product_dict : Product) (k : String) : PyValue :=
  (dget product_dict k).getD (.scalar .sNone)

/-- Message of the PSAWException raised for a product missing required
fields. -/
def missingFieldMsg : String :=
  "At least one of the supplied products is missing a required field."

/-- Model of one iteration of the required-fields loop of
_build_product_entry: the link value is passed as the href attribute, which
lxml accepts only for textual values (TypeError otherwise); other required
fields become simple children with sanitised text. -/
def required_entry_child (product_dict : Product) (field : String) :
    Except PyError Element :=
  if field = "link" then
    match pget product_dict "link" with
    | .scalar (.sStr s) => .ok (.mk "link" [("href", s)] .unset [] [])
    | _ => .error (.typeErr "Argument must be bytes or unicode")
  else
    (sanitize_value (pget product_dict field)).map
      (fun t => .mk field [] t [] [])

/-- Model of one iteration of the optional-fields loop of
_build_product_entry: a cs-namespaced child with sanitised text. -/
def optional_entry_child (product_dict : Product) (field : String) :
    Except PyError Element :=
  (sanitize_value (pget product_dict field)).map
    (fun t => .mk (clarkTag CS_NS field) [] t [] [])

/-- Model of the custom-fields loop of _build_product_entry, threading the
template cache through successive _build_custom_field calls. -/
def Searchanise.build_custom_fields (st : Searchanise) (product_dict : Product) :
    List String → List Element × Searchanise
  | [] => ([], st)
  | f :: fs =>
      let pair := st.build_custom_field f (pget product_dict f)
      let rest := pair.2.build_custom_fields product_dict fs
      (pair.1 :: rest.1, rest.2)

/-- Model of a loop appending one child element per field, where building
a child can raise: the first failure propagates and abandons the entry. -/
def mapExcept (f : String → Except PyError Element) :
    List String → Except PyError (List Element)
  | [] => .ok []
  | x :: xs =>
      match f x with
      | .error e => .error e
      | .ok el =>
          match mapExcept f xs with
          | .error e2 => .error e2
          | .ok els => .ok (el :: els)

/-- Model of _build_product_entry. Raises PSAWException when the required
fields are not a subset of the record's keys; otherwise builds an entry
element whose children are the required fields, the present optional
fields, then the custom fields, in that order. Python set iteration order
is unspecified, so the model fixes the declaration order of the field
constants and the key insertion order for custom fields; no claim
distinguishes these orders. -/
def Searchanise.build_product_entry (st : Searchanise) (product_dict : Product) :
    Except PyError (Element × Searchanise) :=
  let keys := product_dict.map Prod.fst
  if REQUIRED_ENTRY_FIELDS.all (fun f => keys.contains f) then
    match mapExcept (required_entry_child product_dict)
        (REQUIRED_ENTRY_FIELDS.filter (fun f => keys.contains f)) with
    | .error e => .error e
    | .ok req =>
        match mapExcept (optional_entry_child product_dict)
            (OPTIONAL_ENTRY_FIELDS.filter (fun f => keys.contains f)) with
        | .error e => .error e
        | .ok opt =>
            let custom := st.build_custom_fields product_dict
              (keys.filter (fun k => ¬ STANDARD_ENTRY_FIELDS.contains k))
            .ok (.mk "entry" [] .unset NSMAP (req ++ opt ++ custom.1), custom.2)
  else
    .error (.psaw missingFieldMsg)

/-- Reading .text of a parsed response child as str.join sees it: a parsed
element's text is either unset (None) or a string (a parser merges CDATA
sections into plain text, but either constructor carries its string). -/
def textStr : XText → Option String
  | .unset => none
  | .plain s => some s
  | .cdata s => some s

/-- Texts of the error children, all of which must be strings for str.join
to succeed; a None text makes join raise TypeError. -/
def childTexts : List Element → Option (List String)
  | [] => some []
  | e :: es =>
      match textStr e.text, childTexts es with
      | some s, some l => some (s :: l)
      | _, _ => none

/-- Model of _parse_response on the already-parsed response root: a root
tagged errors raises SearchaniseException carrying the newline-joined child
texts (str.join raises TypeError when a child has no text); any other root
is returned unchanged. -/
def parse_response (root : Element) : Except PyError Element :=
  if root.tag = "errors" then
    match childTexts root.children with
    | some l => .error (.searchanise (String.intercalate "\n" l))
    | none => .error (.typeErr "sequence item: expected string, NoneType found")
  else
    .ok root

/-- Values sent as request parameters: strings, numbers, None (requests
sends these form-encoded) and the serialised XML feed, modelled by the
element tree that etree.tostring would serialise. -/
inductive ReqValue where
  | s : String → ReqValue
  | n : Int → ReqValue
  | vnone : ReqValue
  | xml : Element → ReqValue

/-- Record of one HTTP request the client would send: operation path suffix
and form data. All modelled operations use POST. -/
structure Request where
  operation : String
  data : List (String × ReqValue)

/-- Python truthiness of an optional key attribute: None and the empty
string are falsy, so the requires_private_key guard rejects both. -/
def keyFalsy : Option String → Bool
  | none => true
  | some s => s = ""

/-- Model of the requires_private_key decorator message for a wrapped
method of the given name. -/
def requiresKeyMsg (methodName : String) : String :=
  "The " ++ methodName ++ " method requires a private key"

/-- Result of running a client operation: the returned value or raised
error, the client state afterwards, and the requests sent, in order. -/
structure OpResult (α : Type) where
  result : Except PyError α
  state : Searchanise
  requests : List Request

/-- Model of Searchanise.delete, including the requires_private_key guard,
which raises before the method body runs. The response argument stands for
the HTTP response the request would receive. -/
def Searchanise.delete (st : Searchanise) (product_identifier : String)
    (response : Element) : OpResult Element :=
  if keyFalsy st.private_key then
    ⟨.error (.psaw (requiresKeyMsg "delete")), st, []⟩
  else
    let req : Request := ⟨"delete",
      [("private_key", .s (st.private_key.getD "")),
       ("id", .s product_identifier)]⟩
    ⟨parse_response response, st, [req]⟩

/-- Model of Searchanise.delete_all, including the requires_private_key
guard. -/
def Searchanise.delete_all (st : Searchanise) (response : Element) :
    OpResult Element :=
  if keyFalsy st.private_key then
    ⟨.error (.psaw (requiresKeyMsg "delete_all")), st, []⟩
  else
    let req : Request := ⟨"delete",
      [("private_key", .s (st.private_key.getD "")), ("all", .n 1)]⟩
    ⟨parse_response response, st, [req]⟩

/-- Model of Searchanise.add: enqueue one product without validation. -/
def Searchanise.add (st : Searchanise) (product : Product) : Searchanise :=
  { st with products_queue := st.products_queue ++ [product] }

/-- Model of the entry-building loop of update, mapping
_build_product_entry over the queued products in order while threading the
template cache; the first failure propagates. -/
def Searchanise.build_entries (st : Searchanise) :
    List Product → Except PyError (List Element × Searchanise)
  | [] => .ok ([], st)
  | p :: ps =>
      match st.build_product_entry p with
      | .error e => .error e
      | .ok (el, st2) =>
          match st2.build_entries ps with
          | .error e2 => .error e2
          | .ok (els, st3) => .ok (el :: els, st3)

/-- Tag string the source computes for the feed root. The format string
escapes both braces, so the namespace argument is discarded and the literal
result is brace-brace-feed, which lxml normalises to the plain tag feed;
the intended Atom namespace still reaches the document through NSMAP's
default entry, so the serialised root carries it as the default namespace. -/
def feedTag : String := lxmlTag ("\x7b" ++ "\x7d" ++ "feed")

/-- Metadata children of the feed element: title, updated with the
isoformat timestamp, and id. -/
def feedMeta (nowIso : String) : List Element :=
  [.mk "title" [] (.plain "Searchanise data feed") [] [],
   .mk "updated" [] (.plain nowIso) [] [],
   .mk "id" [] (.plain "boh") [] []]

/-- Model of the enqueue step at the top of Searchanise.update: add the
supplied products to the queue (a None or empty argument is falsy and
skipped), then register the custom-field params (same falsiness). -/
def Searchanise.update_enqueue (st : Searchanise)
    (products : Option (List Product))
    (custom_fields_params : Option (List (String × CFParams))) : Searchanise :=
  let st1 := match products with
    | some ps => if ps = [] then st else ps.foldl Searchanise.add st
    | none => st
  match custom_fields_params with
  | some cfp => if cfp = [] then st1 else st1.prebuild_custom_fields_elements cfp
  | none => st1

/-- Model of Searchanise.update, including the requires_private_key guard.
The nowIso argument stands for datetime.datetime.now(pytz.utc).isoformat()
and the response argument for the HTTP response to the update request.
Steps: guard; enqueue products and custom-field params; return without
sending when the queue is empty; build one entry per queued product; send
a single request whose data is the serialised feed; on a non-error
response clear the queue. The method returns None on every successful path
(the parse result is discarded). -/
def Searchanise.update (st : Searchanise) (products : Option (List Product))
    (custom_fields_params : Option (List (String × CFParams)))
    (nowIso : String) (response : Element) : OpResult Unit :=
  if keyFalsy st.private_key then
    ⟨.error (.psaw (requiresKeyMsg "update")), st, []⟩
  else
    let st2 := st.update_enqueue products custom_fields_params
    if st2.products_queue = [] then
      ⟨.ok (), st2, []⟩
    else
      match st2.build_entries st2.products_queue with
      | .error e => ⟨.error e, st2, []⟩
      | .ok (entries, st3) =>
          let feed : Element := .mk feedTag [] .unset NSMAP (feedMeta nowIso ++ entries)
          let req : Request := ⟨"update",
            [("private_key", .s (st3.private_key.getD "")), ("data", .xml feed)]⟩
          match parse_response response with
          | .error e => ⟨.error e, st3, [req]⟩
          | .ok _ => ⟨.ok (), { st3 with products_queue := [] }, [req]⟩

/-- Model of the SearchaniseQuery state: the owning client instance, the
query string, the output format, and the two filter dicts. The underscore
of the private dict attributes is dropped and a dict suffix added to avoid
clashing with the methods of the same name. -/
structure SearchaniseQuery where
  searchanise_instance : Searchanise
  query_string : String
  output_format : String
  restrict_by_dict : List (String × PyValue)
  query_by_dict : List (String × PyValue)
  deriving DecidableEq

/-- Model of Searchanise.query: a fresh SearchaniseQuery bound to the
client with empty filter dicts and json output format. -/
def Searchanise.query (st : Searchanise) (query_string : String) :
    SearchaniseQuery :=
  ⟨st, query_string, "json", [], []⟩

/-- Model of the api_key property, delegating to the bound client. -/
def SearchaniseQuery.api_key (q : SearchaniseQuery) : Option String :=
  q.searchanise_instance.api_key

/-- Model of SearchaniseQuery.restrict_by: merge the keyword arguments
into the restrict dict, overwriting existing keys. -/
def SearchaniseQuery.restrict_by (q : SearchaniseQuery)
    (kwargs : List (String × PyValue)) : SearchaniseQuery :=
  let d := kwargs.foldl (fun d p => dset d p.1 p.2) q.restrict_by_dict
  { q with restrict_by_dict := d }

/-- Model of SearchaniseQuery.query_by: merge the keyword arguments into
the query dict, overwriting existing keys. -/
def SearchaniseQuery.query_by (q : SearchaniseQuery)
    (kwargs : List (String × PyValue)) : SearchaniseQuery :=
  let d := kwargs.foldl (fun d p => dset d p.1 p.2) q.query_by_dict
  { q with query_by_dict := d }

/-- Model of the inner format_params helper of _get_query_params: each
attr maps to the key name, open bracket, attr, close bracket. -/
def format_params (p_dict : List (String × PyValue)) (name : String) :
    List (String × PyValue) :=
  p_dict.map (fun p => (name ++ "[" ++ p.1 ++ "]", p.2))

/-- Python value of the api_key request parameter: the key string, or None
when no key is set. -/
def optStr : Option String → PyValue
  | some s => .scalar (.sStr s)
  | none => .scalar .sNone

/-- Model of SearchaniseQuery._get_query_params: an empty dict updated
with the formatted restrict params, then the formatted query params, then
the q and api_key entries. -/
def SearchaniseQuery.get_query_params (q : SearchaniseQuery) :
    List (String × PyValue) :=
  let qp := (format_params q.restrict_by_dict "restrictBy").foldl
    (fun d p => dset d p.1 p.2) []
  let qp := (format_params q.query_by_dict "queryBy").foldl
    (fun d p => dset d p.1 p.2) qp
  let qp := dset qp "q" (.scalar (.sStr q.query_string))
  dset qp "api_key" (optStr q.api_key)

/-- Value held by a dict key after a sequence of assignments: the last
assignment wins, mirroring dict.update semantics over an item list. -/
def lastVal {V : Type} : List (String × V) → String → Option V
  | [], _ => none
  | p :: d, k =>
      match lastVal d k with
      | some v => some v
      | none => if p.1 = k then some p.2 else none

/-- Merge of a new lookup result with an old one: the new binding wins
when present, mirroring what a sequence of assignments leaves behind. -/
def mergeLookup {V : Type} (newv old : Option V) : Option V :=
  match newv with
  | some v => some v
  | none => old


/-- Response element standing for a generic successful service reply. -/
def okResponse : Element := .mk "ok" [] .unset [] []

/-- Concrete timestamp string used when instantiating update runs. -/
def exNow : String := "2020-01-01T00:00:00+00:00"

/-- Concrete product record with exactly the four required fields. -/
def exProduct : Product :=
  [("id", .scalar (.sStr "1")), ("title", .scalar (.sStr "Shoe")),
   ("summary", .scalar (.sStr "Nice")), ("link", .scalar (.sStr "http://shop/1"))]

/-- Concrete keyed client whose queue holds the example product. -/
def exClient : Searchanise :=
  { Searchanise.init none (some "secret") 200 with products_queue := [exProduct] }

/-- Entry the example product builds to. -/
def exEntry : Element :=
  .mk "entry" [] .unset NSMAP
    [.mk "id" [] (.cdata "1") [] [],
     .mk "title" [] (.cdata "Shoe") [] [],
     .mk "summary" [] (.cdata "Nice") [] [],
     .mk "link" [("href", "http://shop/1")] .unset [] []]

/-- Concrete query bound to a client with an API key, with one restriction
and one query filter already set. -/
def exQuery : SearchaniseQuery :=
  ⟨Searchanise.init (some "APIKEY") none 200, "shoes", "json",
   [("color", .scalar (.sStr "red"))], [("size", .scalar (.sInt 1))]⟩

/-- Concrete keyword arguments overwriting the color restriction. -/
def exKwargs : List (String × PyValue) := [("color", .scalar (.sStr "blue"))]

/-! Helper lemmas about the dict model and the flattened parameter keys. -/

theorem dget_eq_none_of_not_mem {V : Type} (d : List (String × V)) (k : String)
    (h : ¬ k ∈ d.map Prod.fst) : dget d k = none := by
  induction d with
  | nil => rfl
  | cons p d ih =>
      have h1 : ¬ p.1 = k := fun he => h (by simp [he])
      have h2 : ¬ k ∈ d.map Prod.fst := fun hm => h (by simp [hm])
      simp [dget, h1, ih h2]

theorem dget_some_mem {V : Type} (d : List (String × V)) (k : String) (v : V)
    (h : dget d k = some v) : k ∈ d.map Prod.fst := by
  by_contra hm
  rw [dget_eq_none_of_not_mem d k hm] at h
  exact Option.noConfusion h

theorem dget_dset {V : Type} (d : List (String × V)) (k k' : String) (v : V) :
    dget (dset d k v) k' = if k = k' then some v else dget d k' := by
  induction d with
  | nil => simp [dget, dset]
  | cons p d ih =>
      simp only [dset]
      by_cases hp : p.1 = k
      · rw [if_pos hp]
        by_cases hk : k = k'
        · simp [dget, hk]
        · simp [dget, hk, hp]
      · rw [if_neg hp]
        simp only [dget]
        by_cases hpk' : p.1 = k'
        · have hkk : ¬ k = k' := fun he => hp (by rw [he, hpk'])
          simp [hpk', hkk]
        · simp [hpk', ih]

theorem dget_foldl_dset {V : Type} (l : List (String × V)) (d : List (String × V))
    (k : String) :
    dget (l.foldl (fun d p => dset d p.1 p.2) d) k =
      mergeLookup (lastVal l k) (dget d k) := by
  induction l generalizing d with
  | nil => simp [lastVal, mergeLookup]
  | cons p l ih =>
      simp only [List.foldl_cons, lastVal, ih, dget_dset]
      cases lastVal l k with
      | some v => rfl
      | none =>
          by_cases hp : p.1 = k
          · simp [hp, mergeLookup]
          · simp [hp, mergeLookup]

theorem lastVal_eq_none {V : Type} (l : List (String × V)) (k : String)
    (h : ∀ p ∈ l, p.1 ≠ k) : lastVal l k = none := by
  induction l with
  | nil => rfl
  | cons p l ih =>
      have h1 := h p (by simp)
      have h2 : ∀ q ∈ l, q.1 ≠ k := fun q hq => h q (by simp [hq])
      simp [lastVal, ih h2, h1]

theorem lastVal_eq_dget_of_nodup {V : Type} (d : List (String × V)) (k : String)
    (h : (d.map Prod.fst).Nodup) : lastVal d k = dget d k := by
  induction d with
  | nil => rfl
  | cons p d ih =>
      simp only [List.map_cons, List.nodup_cons] at h
      by_cases hp : p.1 = k
      · have : ¬ k ∈ d.map Prod.fst := hp ▸ h.1
        rw [lastVal, ih h.2, dget_eq_none_of_not_mem d k this]
        simp [dget, hp]
      · rw [lastVal, ih h.2]
        cases hd : dget d k with
        | some v => simp [dget, hp, hd]
        | none => simp [dget, hp, hd]

theorem data_append (s t : String) : (s ++ t).data = s.data ++ t.data := rfl

theorem wrap_inj (name x y : String)
    (h : name ++ "[" ++ x ++ "]" = name ++ "[" ++ y ++ "]") : x = y := by
  have hd : name.data ++ ("[".data ++ (x.data ++ "]".data)) =
      name.data ++ ("[".data ++ (y.data ++ "]".data)) := by
    simpa [data_append, List.append_assoc] using congrArg String.data h
  have h1 := List.append_cancel_left hd
  have h2 := List.append_cancel_left h1
  have h3 := List.append_cancel_right h2
  cases x; cases y; simp_all

theorem query_wrap_ne_restrict_wrap (a b : String) :
    ("queryBy" ++ "[" ++ b ++ "]") ≠ ("restrictBy" ++ "[" ++ a ++ "]") := by
  intro h
  have hd := congrArg String.data h
  rw [show ("queryBy" ++ "[" ++ b ++ "]").data = 'q' :: ("ueryBy[" ++ b ++ "]").data from rfl,
     show ("restrictBy" ++ "[" ++ a ++ "]").data = 'r' :: ("estrictBy[" ++ a ++ "]").data from rfl] at hd
  injection hd with h1 _
  exact absurd h1 (by decide)

theorem length_wrap (n a : String) :
    (n ++ "[" ++ a ++ "]").length = n.length + a.length + 2 := by
  rw [String.length_append, String.length_append, String.length_append,
    show "[".length = 1 from rfl, show "]".length = 1 from rfl]
  omega

theorem wrap_ne_of_length (n a other : String) (h : other.length < n.length + 2) :
    (n ++ "[" ++ a ++ "]") ≠ other := by
  intro he
  have hl := congrArg String.length he
  rw [length_wrap] at hl
  omega

theorem lastVal_format {V : Type} (d : List (String × V)) (name a : String) :
    lastVal (d.map (fun p => (name ++ "[" ++ p.1 ++ "]", p.2)))
      (name ++ "[" ++ a ++ "]") = lastVal d a := by
  induction d with
  | nil => rfl
  | cons p d ih =>
      simp only [List.map_cons, lastVal, ih]
      cases lastVal d a with
      | some v => rfl
      | none =>
          by_cases hp : p.1 = a
          · simp [hp]
          · have hne : ¬ (name ++ "[" ++ p.1 ++ "]" = name ++ "[" ++ a ++ "]") :=
              fun he => hp (wrap_inj _ _ _ he)
            simp [hp, hne]

theorem lastVal_format_none {V : Type} (d : List (String × V)) (name k : String)
    (h : ∀ x, name ++ "[" ++ x ++ "]" ≠ k) :
    lastVal (d.map (fun p => (name ++ "[" ++ p.1 ++ "]", p.2))) k = none := by
  apply lastVal_eq_none
  intro p hp
  obtain ⟨q, hq, rfl⟩ := List.mem_map.mp hp
  exact h q.1

theorem build_entries_length (st : Searchanise) (ps : List Product)
    (entries : List Element) (st3 : Searchanise)
    (h : st.build_entries ps = .ok (entries, st3)) :
    entries.length = ps.length := by
  induction ps generalizing st entries st3 with
  | nil =>
      simp only [Searchanise.build_entries, Except.ok.injEq, Prod.mk.injEq] at h
      obtain ⟨h1, h2⟩ := h
      subst h1
      rfl
  | cons p ps ih =>
      cases hbe : st.build_product_entry p with
      | error e =>
          simp [Searchanise.build_entries, hbe] at h
      | ok pr =>
          obtain ⟨e, st2⟩ := pr
          cases hbs : st2.build_entries ps with
          | error e2 =>
              simp [Searchanise.build_entries, hbe, hbs] at h
          | ok pr2 =>
              obtain ⟨es, st4⟩ := pr2
              simp only [Searchanise.build_entries, hbe, hbs, Except.ok.injEq,
                Prod.mk.injEq] at h
              obtain ⟨h1, h2⟩ := h
              subst h1
              simp [ih st2 es st4 hbs]

theorem update_requests_of_build_ok (st : Searchanise) (nowIso : String)
    (response : Element) (entries : List Element) (st3 : Searchanise)
    (hpk : keyFalsy st.private_key = false)
    (hq : ¬ st.products_queue = [])
    (hb : st.build_entries st.products_queue = .ok (entries, st3)) :
    (st.update none none nowIso response).requests =
      [⟨"update",
        [("private_key", .s (st3.private_key.getD "")),
         ("data", .xml (.mk feedTag [] .unset NSMAP (feedMeta nowIso ++ entries)))]⟩] := by
  have henq : st.update_enqueue none none = st := rfl
  simp only [Searchanise.update, hpk, Bool.false_eq_true, if_false, henq, if_neg hq, hb]
  cases parse_response response <;> rfl

/-- C2: for every product record missing at least one of the fields id,
title, summary, link, building its entry fails with the library validation
error (PSAWException), regardless of which other fields are present. -/
theorem claim_C2 (st : Searchanise) (product_dict : Product) (f : String)
    (hf : f ∈ REQUIRED_ENTRY_FIELDS) (hmiss : ¬ f ∈ product_dict.map Prod.fst) :
    st.build_product_entry product_dict = .error (.psaw missingFieldMsg) := by
  have hall : REQUIRED_ENTRY_FIELDS.all
      (fun g => (product_dict.map Prod.fst).contains g) = false := by
    by_contra hc
    rw [Bool.not_eq_false] at hc
    have h2 := List.all_eq_true.mp hc f hf
    have h3 : f ∈ product_dict.map Prod.fst := by simpa using h2
    exact hmiss h3
  simp only [Searchanise.build_product_entry, hall, Bool.false_eq_true, if_false]

/-- C2 witness: the empty record is missing the required field id and its
entry fails with the validation error. -/
theorem claim_C2_witness :
    ("id" ∈ REQUIRED_ENTRY_FIELDS)
    ∧ ¬ ("id" ∈ ([] : Product).map Prod.fst)
    ∧ (Searchanise.init none (some "secret") 200).build_product_entry [] =
        .error (.psaw missingFieldMsg) :=
  ⟨by decide, by decide,
    claim_C2 (Searchanise.init none (some "secret") 200) [] "id"
      (by decide) (by decide)⟩

/-- C4: a custom field whose value is a sequence of scalars yields one
child value element per item carrying that item's sanitised text (and no
text on the field element itself); a textual scalar yields CDATA text on
the element itself and no children; a numeric scalar yields its rendering
as text; None and False yield empty text. -/
theorem claim_C4 (st : Searchanise) (custom_field_name : String)
    (items : List PyScalar) (s : String) (n : Int) :
    ((st.build_custom_field custom_field_name (.seq items)).1.children =
        items.map (fun v => Element.mk "value" [] (sanitize_text v) [] []))
    ∧ (st.build_custom_field custom_field_name (.seq items)).1.text = .unset
    ∧ (st.build_custom_field custom_field_name (.scalar (.sStr s))).1.text = .cdata s
    ∧ (st.build_custom_field custom_field_name (.scalar (.sStr s))).1.children = []
    ∧ (st.build_custom_field custom_field_name (.scalar (.sInt n))).1.text =
        .plain (toString n)
    ∧ (st.build_custom_field custom_field_name (.scalar (.sInt n))).1.children = []
    ∧ (st.build_custom_field custom_field_name (.scalar .sNone)).1.text = .plain ""
    ∧ (st.build_custom_field custom_field_name (.scalar (.sBool false))).1.text =
        .plain "" :=
  ⟨rfl, rfl, rfl, rfl, rfl, rfl, rfl, rfl⟩

/-- C5 (amended): parsing a response whose root tag is errors raises the
remote-service error carrying the newline-joined child texts provided
every child has text content (str.join raises TypeError on a missing
text); a response with any other root tag is returned unchanged. -/
theorem claim_C5 (root : Element) (l : List String) :
    (root.tag = "errors" → childTexts root.children = some l →
      parse_response root = .error (.searchanise (String.intercalate "\n" l)))
    ∧ (root.tag ≠ "errors" → parse_response root = .ok root) := by
  constructor
  · intro ht hc
    simp [parse_response, ht, hc]
  · intro ht
    simp [parse_response, ht]

/-- C5 counterexample: an errors response with one child that has no text
raises a Python TypeError from the join, not the remote-service error with
joined texts that the claim describes. -/
theorem claim_C5_cex :
    parse_response (.mk "errors" [] .unset []
        [.mk "error" [] .unset [] []]) =
      .error (.typeErr "sequence item: expected string, NoneType found") := rfl

/-- C5 witness: an errors response whose two children carry texts a and b
raises the remote-service error with the newline-joined message. -/
theorem claim_C5_witness :
    parse_response (.mk "errors" [] .unset []
        [.mk "error" [] (.plain "a") [] [], .mk "error" [] (.plain "b") [] []]) =
      .error (.searchanise (String.intercalate "\n" ["a", "b"])) :=
  (claim_C5 (.mk "errors" [] .unset []
      [.mk "error" [] (.plain "a") [] [], .mk "error" [] (.plain "b") [] []])
    ["a", "b"]).1 rfl rfl

/-- C6: with no private key set, delete, delete_all and update all raise
the authorization error (PSAWException) immediately: no request is sent
and the client state is returned unchanged, for any arguments. -/
theorem claim_C6 (st : Searchanise) (product_identifier : String)
    (response : Element) (products : Option (List Product))
    (custom_fields_params : Option (List (String × CFParams))) (nowIso : String)
    (h : st.private_key = none) :
    st.delete product_identifier response =
      ⟨.error (.psaw (requiresKeyMsg "delete")), st, []⟩
    ∧ st.delete_all response =
      ⟨.error (.psaw (requiresKeyMsg "delete_all")), st, []⟩
    ∧ st.update products custom_fields_params nowIso response =
      ⟨.error (.psaw (requiresKeyMsg "update")), st, []⟩ := by
  have hk : keyFalsy st.private_key = true := by rw [h]; rfl
  exact ⟨by simp [Searchanise.delete, hk], by simp [Searchanise.delete_all, hk],
    by simp [Searchanise.update, hk]⟩

/-- C6 witness: a freshly initialised client without keys rejects all
three operations without sending anything. -/
theorem claim_C6_witness :
    (Searchanise.init none none 200).delete "p1" (.mk "ok" [] .unset [] []) =
      ⟨.error (.psaw (requiresKeyMsg "delete")), Searchanise.init none none 200, []⟩
    ∧ (Searchanise.init none none 200).delete_all (.mk "ok" [] .unset [] []) =
      ⟨.error (.psaw (requiresKeyMsg "delete_all")), Searchanise.init none none 200, []⟩
    ∧ (Searchanise.init none none 200).update none none "2020-01-01T00:00:00+00:00"
        (.mk "ok" [] .unset [] []) =
      ⟨.error (.psaw (requiresKeyMsg "update")), Searchanise.init none none 200, []⟩ :=
  claim_C6 (Searchanise.init none none 200) "p1" (.mk "ok" [] .unset [] [])
    none none "2020-01-01T00:00:00+00:00" rfl

/-- C7: after every update call that completes without raising, the
product queue of the resulting client state is empty (this covers both the
empty-queue early return and the successful submission, which clears the
queue). -/
theorem claim_C7 (st : Searchanise) (products : Option (List Product))
    (custom_fields_params : Option (List (String × CFParams)))
    (nowIso : String) (response : Element)
    (h : (st.update products custom_fields_params nowIso response).result = .ok ()) :
    (st.update products custom_fields_params nowIso response).state.products_queue
      = [] := by
  by_cases hpk : keyFalsy st.private_key = true
  · simp [Searchanise.update, hpk] at h
  · rw [Bool.not_eq_true] at hpk
    by_cases hq : (st.update_enqueue products custom_fields_params).products_queue = []
    · simp [Searchanise.update, hpk, hq]
    · cases hb : (st.update_enqueue products custom_fields_params).build_entries
          (st.update_enqueue products custom_fields_params).products_queue with
      | error e =>
          simp [Searchanise.update, hpk, hq, hb] at h
      | ok pr =>
          obtain ⟨entries, st3⟩ := pr
          cases hpr : parse_response response with
          | error e =>
              simp [Searchanise.update, hpk, hq, hb, hpr] at h
          | ok root =>
              simp [Searchanise.update, hpk, hq, hb, hpr]

/-- C7 witness: a keyed client with an empty queue completes update
without error and its queue is empty afterwards. -/
theorem claim_C7_witness :
    ((Searchanise.init none (some "secret") 200).update none none
        "2020-01-01T00:00:00+00:00" (.mk "ok" [] .unset [] [])).result = .ok ()
    ∧ ((Searchanise.init none (some "secret") 200).update none none
        "2020-01-01T00:00:00+00:00" (.mk "ok" [] .unset [] [])).state.products_queue
      = [] :=
  ⟨rfl, claim_C7 (Searchanise.init none (some "secret") 200) none none
    "2020-01-01T00:00:00+00:00" (.mk "ok" [] .unset [] []) rfl⟩

/-- C8: calling update with no products argument and no custom-field
params while the product queue is empty sends no request and returns the
client state unchanged (queue and template cache included), whether the
guard raises or the empty-queue early return fires. -/
theorem claim_C8 (st : Searchanise) (nowIso : String) (response : Element)
    (h : st.products_queue = []) :
    (st.update none none nowIso response).state = st
    ∧ (st.update none none nowIso response).requests = [] := by
  have henq : st.update_enqueue none none = st := rfl
  by_cases hpk : keyFalsy st.private_key = true
  · constructor <;> simp [Searchanise.update, hpk]
  · rw [Bool.not_eq_true] at hpk
    constructor <;> simp [Searchanise.update, hpk, henq, h]

/-- C8 witness: a keyed client with an empty queue and a client without a
key both come back unchanged with no request sent. -/
theorem claim_C8_witness :
    ((Searchanise.init (some "api") (some "secret") 200).update none none
        "2020-01-01T00:00:00+00:00" (.mk "ok" [] .unset [] [])).state =
      Searchanise.init (some "api") (some "secret") 200
    ∧ ((Searchanise.init (some "api") (some "secret") 200).update none none
        "2020-01-01T00:00:00+00:00" (.mk "ok" [] .unset [] [])).requests = [] :=
  claim_C8 (Searchanise.init (some "api") (some "secret") 200)
    "2020-01-01T00:00:00+00:00" (.mk "ok" [] .unset [] []) rfl

/-- C1 (amended): for a client with a private key set whose non-empty
queue builds successfully into entries, update sends exactly one request
whose data is a feed document: the root tag is feed (the format-string
quirk discards the namespace argument, so the tag is unnamespaced
in-memory, while NSMAP still declares the Atom URI as the document's
default namespace), its children are title, updated carrying the supplied
UTC ISO-8601 timestamp, and id, followed by one entry per queued product
in queue order. -/
theorem claim_C1 (st : Searchanise) (nowIso : String) (response : Element)
    (entries : List Element) (st3 : Searchanise)
    (hpk : keyFalsy st.private_key = false)
    (hq : ¬ st.products_queue = [])
    (hb : st.build_entries st.products_queue = .ok (entries, st3)) :
    (st.update none none nowIso response).requests =
      [⟨"update",
        [("private_key", .s (st3.private_key.getD "")),
         ("data", .xml (.mk "feed" [] .unset [(none, ATOM_NS), (some "cs", CS_NS)]
           ([.mk "title" [] (.plain "Searchanise data feed") [] [],
             .mk "updated" [] (.plain nowIso) [] [],
             .mk "id" [] (.plain "boh") [] []] ++ entries)))]⟩]
    ∧ entries.length = st.products_queue.length := by
  refine ⟨?_, build_entries_length _ _ _ _ hb⟩
  rw [update_requests_of_build_ok st nowIso response entries st3 hpk hq hb]
  have hft : feedTag = "feed" := by decide
  rw [hft]
  rfl

/-- C1 witness: the example client's one-product queue yields one update
request carrying the full feed document. -/
theorem claim_C1_witness :
    (exClient.update none none exNow okResponse).requests =
      [⟨"update",
        [("private_key", .s "secret"),
         ("data", .xml (.mk "feed" [] .unset [(none, ATOM_NS), (some "cs", CS_NS)]
           ([.mk "title" [] (.plain "Searchanise data feed") [] [],
             .mk "updated" [] (.plain exNow) [] [],
             .mk "id" [] (.plain "boh") [] []] ++ [exEntry])))]⟩]
    ∧ ([exEntry] : List Element).length = exClient.products_queue.length :=
  claim_C1 exClient exNow okResponse [exEntry] exClient rfl (by decide) rfl

/-- C1 counterexample: with a record missing the required fields in the
queue, update raises the validation error and sends no request at all, so
no feed document with one entry per queued product is built. -/
theorem claim_C1_cex :
    (({ Searchanise.init none (some "secret") 200 with
        products_queue := [[]] }).update none none exNow okResponse).result =
      .error (.psaw missingFieldMsg)
    ∧ (({ Searchanise.init none (some "secret") 200 with
        products_queue := [[]] }).update none none exNow okResponse).requests
      = [] := ⟨rfl, rfl⟩

/-- C10: the constructor stores the literal 200 as max_products_per_feed
whatever argument is passed, and a successful update submits the whole
queue in a single request with one entry per queued product, enforcing no
per-feed limit. -/
theorem claim_C10 (api_key private_key : Option String) (m : Nat)
    (st : Searchanise) (nowIso : String) (response : Element)
    (entries : List Element) (st3 : Searchanise)
    (hpk : keyFalsy st.private_key = false)
    (hq : ¬ st.products_queue = [])
    (hb : st.build_entries st.products_queue = .ok (entries, st3)) :
    (Searchanise.init api_key private_key m).max_products_per_feed = 200
    ∧ (st.update none none nowIso response).requests.length = 1
    ∧ entries.length = st.products_queue.length := by
  refine ⟨rfl, ?_, build_entries_length _ _ _ _ hb⟩
  rw [update_requests_of_build_ok st nowIso response entries st3 hpk hq hb]
  rfl

/-- C10 witness: constructing with max_products_per_feed 7 still stores
200, and the example client's update sends a single request. -/
theorem claim_C10_witness :
    (Searchanise.init none none 7).max_products_per_feed = 200
    ∧ (exClient.update none none exNow okResponse).requests.length = 1
    ∧ ([exEntry] : List Element).length = exClient.products_queue.length :=
  claim_C10 none none 7 exClient exNow okResponse [exEntry] exClient
    rfl (by decide) rfl

/-- C3 counterexample: a record with exactly the four required fields but
a numeric link value builds no entry at all: lxml accepts only textual
attribute values, so passing the number as the href attribute raises a
TypeError instead of producing an entry with four children. -/
theorem claim_C3_cex :
    (Searchanise.init none none 200).build_product_entry
      [("id", .scalar (.sStr "1")), ("title", .scalar (.sStr "t")),
       ("summary", .scalar (.sStr "s")), ("link", .scalar (.sInt 5))] =
    .error (.typeErr "Argument must be bytes or unicode") := rfl

/-- C3 (amended): for every product record whose key set is exactly the
four required fields, with scalar values and a textual link value, the
built entry has exactly the four standard children and the link value
appears as the href attribute of the link child, whose text stays unset. -/
theorem claim_C3 (st : Searchanise) (product_dict : Product) (s : String)
    (va vb vc : PyScalar)
    (hid : dget product_dict "id" = some (.scalar va))
    (htitle : dget product_dict "title" = some (.scalar vb))
    (hsum : dget product_dict "summary" = some (.scalar vc))
    (hlink : dget product_dict "link" = some (.scalar (.sStr s)))
    (honly : ∀ k, k ∈ product_dict.map Prod.fst → k ∈ REQUIRED_ENTRY_FIELDS) :
    st.build_product_entry product_dict =
      .ok (.mk "entry" [] .unset NSMAP
        [.mk "id" [] (sanitize_text va) [] [],
         .mk "title" [] (sanitize_text vb) [] [],
         .mk "summary" [] (sanitize_text vc) [] [],
         .mk "link" [("href", s)] .unset [] []], st) := by
  have hmid : ("id" : String) ∈ product_dict.map Prod.fst := dget_some_mem _ _ _ hid
  have hmtitle : ("title" : String) ∈ product_dict.map Prod.fst :=
    dget_some_mem _ _ _ htitle
  have hmsum : ("summary" : String) ∈ product_dict.map Prod.fst :=
    dget_some_mem _ _ _ hsum
  have hmlink : ("link" : String) ∈ product_dict.map Prod.fst :=
    dget_some_mem _ _ _ hlink
  have hnprice : ¬ ("price" : String) ∈ product_dict.map Prod.fst :=
    fun hm => absurd (honly _ hm) (by decide)
  have hnquantity : ¬ ("quantity" : String) ∈ product_dict.map Prod.fst :=
    fun hm => absurd (honly _ hm) (by decide)
  have hnpcode : ¬ ("product_code" : String) ∈ product_dict.map Prod.fst :=
    fun hm => absurd (honly _ hm) (by decide)
  have hnimg : ¬ ("image_link" : String) ∈ product_dict.map Prod.fst :=
    fun hm => absurd (honly _ hm) (by decide)
  have hcust : (product_dict.map Prod.fst).filter
      (fun k => !decide (k ∈ STANDARD_ENTRY_FIELDS)) = [] := by
    rw [List.filter_eq_nil_iff]
    intro k hk
    have hkstd : k ∈ STANDARD_ENTRY_FIELDS :=
      List.mem_append.mpr (Or.inl (honly k hk))
    simp [hkstd]
  simp [Searchanise.build_product_entry, REQUIRED_ENTRY_FIELDS,
    OPTIONAL_ENTRY_FIELDS, hmid, hmtitle, hmsum, hmlink, hnprice, hnquantity,
    hnpcode, hnimg, hcust, mapExcept, required_entry_child,
    optional_entry_child, pget, hid, htitle, hsum, hlink, sanitize_value,
    Except.map, Searchanise.build_custom_fields]

/-- C3 witness: the example record with the four required string fields
builds exactly the expected four-child entry with the href link. -/
theorem claim_C3_witness :
    (Searchanise.init none none 200).build_product_entry exProduct =
      .ok (.mk "entry" [] .unset NSMAP
        [.mk "id" [] (sanitize_text (.sStr "1")) [] [],
         .mk "title" [] (sanitize_text (.sStr "Shoe")) [] [],
         .mk "summary" [] (sanitize_text (.sStr "Nice")) [] [],
         .mk "link" [("href", "http://shop/1")] .unset [] []],
        Searchanise.init none none 200) :=
  claim_C3 (Searchanise.init none none 200) exProduct "http://shop/1"
    (.sStr "1") (.sStr "Shoe") (.sStr "Nice") rfl rfl rfl rfl (by decide)

/-- C9: restrict_by and query_by merge their keyword arguments into the
respective mapping with later values overwriting earlier ones on the same
key, and the built parameter set maps each restriction attr to the
bracketed restrictBy key, each query attr to the bracketed queryBy key,
plus the q entry carrying the query string and the api_key entry carrying
the client's API key. -/
theorem claim_C9 (q : SearchaniseQuery) (kwargs : List (String × PyValue))
    (hr : (q.restrict_by_dict.map Prod.fst).Nodup)
    (hqn : (q.query_by_dict.map Prod.fst).Nodup) :
    (∀ k, dget (q.restrict_by kwargs).restrict_by_dict k =
        mergeLookup (lastVal kwargs k) (dget q.restrict_by_dict k))
    ∧ (∀ k, dget (q.query_by kwargs).query_by_dict k =
        mergeLookup (lastVal kwargs k) (dget q.query_by_dict k))
    ∧ (∀ a v, dget q.restrict_by_dict a = some v →
        dget q.get_query_params ("restrictBy" ++ "[" ++ a ++ "]") = some v)
    ∧ (∀ a v, dget q.query_by_dict a = some v →
        dget q.get_query_params ("queryBy" ++ "[" ++ a ++ "]") = some v)
    ∧ dget q.get_query_params "q" = some (.scalar (.sStr q.query_string))
    ∧ dget q.get_query_params "api_key" = some (optStr q.api_key) := by
  refine ⟨?_, ?_, ?_, ?_, ?_, ?_⟩
  · intro k
    simp only [SearchaniseQuery.restrict_by]
    exact dget_foldl_dset kwargs q.restrict_by_dict k
  · intro k
    simp only [SearchaniseQuery.query_by]
    exact dget_foldl_dset kwargs q.query_by_dict k
  · intro a v hv
    simp only [SearchaniseQuery.get_query_params]
    rw [dget_dset]
    have h1 : ("restrictBy" ++ "[" ++ a ++ "]") ≠ "api_key" :=
      wrap_ne_of_length _ _ _ (by decide)
    rw [if_neg (fun he => h1 he.symm)]
    rw [dget_dset]
    have h2 : ("restrictBy" ++ "[" ++ a ++ "]") ≠ "q" :=
      wrap_ne_of_length _ _ _ (by decide)
    rw [if_neg (fun he => h2 he.symm)]
    rw [dget_foldl_dset]
    have h3 : lastVal (format_params q.query_by_dict "queryBy")
        ("restrictBy" ++ "[" ++ a ++ "]") = none := by
      unfold format_params
      exact lastVal_format_none _ _ _ (fun x => query_wrap_ne_restrict_wrap a x)
    rw [h3]
    simp only [mergeLookup]
    rw [dget_foldl_dset]
    have h4 : lastVal (format_params q.restrict_by_dict "restrictBy")
        ("restrictBy" ++ "[" ++ a ++ "]") = lastVal q.restrict_by_dict a := by
      unfold format_params
      exact lastVal_format _ _ _
    rw [h4, lastVal_eq_dget_of_nodup _ _ hr, hv]
    rfl
  · intro a v hv
    simp only [SearchaniseQuery.get_query_params]
    rw [dget_dset]
    have h1 : ("queryBy" ++ "[" ++ a ++ "]") ≠ "api_key" :=
      wrap_ne_of_length _ _ _ (by decide)
    rw [if_neg (fun he => h1 he.symm)]
    rw [dget_dset]
    have h2 : ("queryBy" ++ "[" ++ a ++ "]") ≠ "q" :=
      wrap_ne_of_length _ _ _ (by decide)
    rw [if_neg (fun he => h2 he.symm)]
    rw [dget_foldl_dset]
    have h3 : lastVal (format_params q.query_by_dict "queryBy")
        ("queryBy" ++ "[" ++ a ++ "]") = lastVal q.query_by_dict a := by
      unfold format_params
      exact lastVal_format _ _ _
    rw [h3, lastVal_eq_dget_of_nodup _ _ hqn, hv]
    rfl
  · simp only [SearchaniseQuery.get_query_params]
    rw [dget_dset]
    have h1 : ¬ ("api_key" = "q") := by decide
    rw [if_neg h1]
    rw [dget_dset, if_pos rfl]
  · simp only [SearchaniseQuery.get_query_params]
    rw [dget_dset, if_pos rfl]

/-- C9 witness: on the example query the merge and flattening behave as
claimed, with both filter dicts having unique keys. -/
theorem claim_C9_witness :
    (∀ k, dget (exQuery.restrict_by exKwargs).restrict_by_dict k =
        mergeLookup (lastVal exKwargs k) (dget exQuery.restrict_by_dict k))
    ∧ (∀ k, dget (exQuery.query_by exKwargs).query_by_dict k =
        mergeLookup (lastVal exKwargs k) (dget exQuery.query_by_dict k))
    ∧ (∀ a v, dget exQuery.restrict_by_dict a = some v →
        dget exQuery.get_query_params ("restrictBy" ++ "[" ++ a ++ "]") = some v)
    ∧ (∀ a v, dget exQuery.query_by_dict a = some v →
        dget exQuery.get_query_params ("queryBy" ++ "[" ++ a ++ "]") = some v)
    ∧ dget exQuery.get_query_params "q" = some (.scalar (.sStr exQuery.query_string))
    ∧ dget exQuery.get_query_params "api_key" = some (optStr exQuery.api_key) :=
  claim_C9 exQuery exKwargs (by decide) (by decide)
